import Mathlib

/-!
Verification of the DREW voice-agent relay (FastAPI websocket server + streaming
LLM session engine) against its natural-language specification.

The definitions below are a shallow embedding of the Python source:

* `sstep` / `srun` model the per-connection state of `app/server.py`:
  the `nonlocal response_id` variable shared by all `handle_response_required`
  tasks of one websocket, together with the per-task fragment-emission loop
  (`async for event in llm_client.draft_response(request): if
  request.response_id < response_id: break; await websocket.send_json(...)`).
  A scheduler choice list stands for the cooperative interleaving of tasks.
* `applyToolDelta`, `processDeltas`, `toolResults` and `draft_response` model
  the canonical streaming generation cycle of `app/src/llm.py`
  (`LlmClient.draft_response`), with the model stream, the JSON parser and the
  tool executor supplied as environment parameters.
* `draft_begin_greeting` models `LlmClient.draft_begin_message` greeting
  selection, `callRequestExecute` models `CallRequest.execute` of
  `app/models/models.py`, `cleanup` models `LlmClient.cleanup`, and
  `safe_int` / `safe_float` / `mkPropertyApi1` model the numeric-field parsing
  of `app/tools_integration/zillow_integration.py`.
-/

namespace Drew

/-- Outbound response frame, `ResponseResponse` of `custom_types`:
`{response_id, content, content_complete, end_call}`. -/
structure ResponseResponse where
  response_id : Nat
  content : String
  content_complete : Bool
  end_call : Bool
deriving Repr, DecidableEq

/-! ## Connection / session sequencing model (`app/server.py`)

One websocket connection owns a `nonlocal response_id` (the latest started
interaction request) and a set of generation tasks.  Each
`handle_response_required` task, on start, overwrites `response_id` with its
frame's id; its emission loop checks `request.response_id < response_id`
immediately before forwarding each fragment and breaks when stale. -/

/-- One in-flight `handle_response_required` generation task: its captured
request id, how many fragments its generator still has to yield, and whether
the loop is still running (`alive = false` once it broke or finished). -/
structure GenTask where
  rid : Nat
  pending : Nat
  alive : Bool
deriving Repr, DecidableEq

/-- Connection state: the shared `response_id` variable (`latest`) plus the
in-flight generation tasks. -/
structure SrvState where
  latest : Nat
  tasks : List GenTask
deriving Repr, DecidableEq

/-- One scheduler step: either a new `handle_response_required` task starts
(running its prefix up to and including the `response_id = request_json
["response_id"]` assignment), or task `i` runs one iteration of its emission
loop. -/
inductive SChoice where
  | start (rid nfrags : Nat)
  | emit (i : Nat)
deriving Repr, DecidableEq

/-- Small-step semantics of the connection.  Returns the new state and the
response id of the fragment emitted by this step, if any.  The `emit` case is
the loop body of `handle_response_required`: a dead or exhausted task does
nothing; a task whose captured id is stale (`request.response_id <
response_id`) breaks without emitting; otherwise the fragment is sent. -/
def sstep (s : SrvState) : SChoice → SrvState × Option Nat
  | .start rid n => (⟨rid, s.tasks ++ [⟨rid, n, true⟩]⟩, none)
  | .emit i =>
    match s.tasks[i]? with
    | none => (s, none)
    | some t =>
      if t.alive = false then (s, none)
      else if t.pending = 0 then
        ({ s with tasks := s.tasks.set i { t with alive := false } }, none)
      else if t.rid < s.latest then
        ({ s with tasks := s.tasks.set i { t with alive := false } }, none)
      else
        ({ s with tasks := s.tasks.set i { t with pending := t.pending - 1 } }, some t.rid)

/-- Run a list of scheduler choices, collecting the emitted fragment ids in
order. -/
def srun (s : SrvState) : List SChoice → SrvState × List Nat
  | [] => (s, [])
  | c :: cs =>
    let p := sstep s c
    let q := srun p.1 cs
    (q.1, p.2.toList ++ q.2)

/-- The request ids of the `start` choices, in schedule order (the order the
frames were received, since tasks begin in creation order). -/
def startRids : List SChoice → List Nat
  | [] => []
  | .start r _ :: cs => r :: startRids cs
  | .emit _ :: cs => startRids cs

/-- Initial connection state: `response_id = 0`, no tasks. -/
def initState : SrvState := ⟨0, []⟩

theorem startRids_append (as bs : List SChoice) :
    startRids (as ++ bs) = startRids as ++ startRids bs := by
  induction as with
  | nil => rfl
  | cons c cs ih => cases c <;> simp [startRids, ih]

theorem srun_append (s : SrvState) (as bs : List SChoice) :
    srun s (as ++ bs) =
      ((srun (srun s as).1 bs).1, (srun s as).2 ++ (srun (srun s as).1 bs).2) := by
  induction as generalizing s with
  | nil => simp [srun]
  | cons c cs ih => simp [srun, ih]

/-- Master invariant lemma for a run: provided every task id is bounded by the
shared `response_id` and the ids of the not-yet-started requests are pairwise
non-decreasing and at least the current `response_id`, the shared id only
grows, the task bound is preserved, every emitted fragment id is at least the
starting `response_id`, the emitted ids are non-decreasing, and the final
shared id is either unchanged or one of the started ids. -/
theorem srun_spec (cs : List SChoice) : ∀ s : SrvState,
    (∀ t ∈ s.tasks, t.rid ≤ s.latest) →
    (∀ r ∈ startRids cs, s.latest ≤ r) →
    List.Pairwise (· ≤ ·) (startRids cs) →
    s.latest ≤ (srun s cs).1.latest ∧
    (∀ t ∈ (srun s cs).1.tasks, t.rid ≤ (srun s cs).1.latest) ∧
    (∀ e ∈ (srun s cs).2, s.latest ≤ e) ∧
    List.Pairwise (· ≤ ·) (srun s cs).2 ∧
    ((srun s cs).1.latest = s.latest ∨ (srun s cs).1.latest ∈ startRids cs) := by
  induction cs with
  | nil =>
    intro s hinv _ _
    refine ⟨le_refl _, hinv, ?_, ?_, Or.inl rfl⟩ <;> simp [srun]
  | cons c cs ih =>
    intro s hinv hge hpw
    cases c with
    | start rid n =>
      have hsr : s.latest ≤ rid := hge rid (by simp [startRids])
      have hpw' : List.Pairwise (· ≤ ·) (startRids cs) := (List.pairwise_cons.mp hpw).2
      have hge' : ∀ r ∈ startRids cs, rid ≤ r := (List.pairwise_cons.mp hpw).1
      have hinv' : ∀ t ∈ (s.tasks ++ [⟨rid, n, true⟩]), t.rid ≤ rid := by
        intro t ht
        rcases List.mem_append.mp ht with h | h
        · exact le_trans (hinv t h) hsr
        · simp at h; subst h; exact le_refl _
      have step : srun s (SChoice.start rid n :: cs) =
          ((srun ⟨rid, s.tasks ++ [⟨rid, n, true⟩]⟩ cs).1,
            (srun ⟨rid, s.tasks ++ [⟨rid, n, true⟩]⟩ cs).2) := by
        simp [srun, sstep]
      obtain ⟨ih1, ih2, ih3, ih4, ih5⟩ :=
        ih ⟨rid, s.tasks ++ [⟨rid, n, true⟩]⟩ hinv' hge' hpw'
      rw [step]
      refine ⟨le_trans hsr ih1, ih2, ?_, ih4, ?_⟩
      · intro e he; exact le_trans hsr (ih3 e he)
      · rcases ih5 with h | h
        · right; simp [startRids, h]
        · right; simp [startRids]; right; exact h
    | emit i =>
      have hpw' : List.Pairwise (· ≤ ·) (startRids (SChoice.emit i :: cs)) := hpw
      have hpwcs : List.Pairwise (· ≤ ·) (startRids cs) := by
        simpa [startRids] using hpw'
      have hgecs : ∀ r ∈ startRids cs, s.latest ≤ r := by
        intro r hr; exact hge r (by simpa [startRids] using hr)
      -- case analysis on what the emit step does
      match hgt : s.tasks[i]? with
      | none =>
        have step : srun s (SChoice.emit i :: cs) = srun s cs := by
          simp [srun, sstep, hgt]
        rw [step]
        exact ih s hinv hgecs hpwcs
      | some t =>
        have htm : t ∈ s.tasks := List.getElem?_mem hgt
        have htr : t.rid ≤ s.latest := hinv t htm
        by_cases hal : t.alive = false
        · have step : srun s (SChoice.emit i :: cs) =
              srun { s with tasks := s.tasks.set i { t with alive := false } } cs ∨
              True := Or.inr trivial
          -- alive = false: step is a no-op on the state
          have stepeq : srun s (SChoice.emit i :: cs) = srun s cs := by
            simp [srun, sstep, hgt, hal]
          rw [stepeq]
          exact ih s hinv hgecs hpwcs
        · by_cases hp : t.pending = 0
          · -- generator exhausted: task marked done, no emission
            set s1 : SrvState := { s with tasks := s.tasks.set i { t with alive := false } } with hs1
            have hinv1 : ∀ u ∈ s1.tasks, u.rid ≤ s1.latest := by
              intro u hu
              rcases List.mem_or_eq_of_mem_set hu with h | h
              · exact hinv u h
              · subst h; exact htr
            have stepeq : srun s (SChoice.emit i :: cs) = srun s1 cs := by
              simp [srun, sstep, hgt, hal, hp, hs1]
            rw [stepeq]
            exact ih s1 hinv1 hgecs hpwcs
          · by_cases hst : t.rid < s.latest
            · -- stale id: break, task dies, no emission
              set s1 : SrvState := { s with tasks := s.tasks.set i { t with alive := false } } with hs1
              have hinv1 : ∀ u ∈ s1.tasks, u.rid ≤ s1.latest := by
                intro u hu
                rcases List.mem_or_eq_of_mem_set hu with h | h
                · exact hinv u h
                · subst h; exact htr
              have stepeq : srun s (SChoice.emit i :: cs) = srun s1 cs := by
                simp [srun, sstep, hgt, hal, hp, hst, hs1]
              rw [stepeq]
              exact ih s1 hinv1 hgecs hpwcs
            · -- current id: the fragment is emitted
              have hrid : t.rid = s.latest := le_antisymm htr (Nat.le_of_not_lt hst)
              set s1 : SrvState := { s with tasks := s.tasks.set i { t with pending := t.pending - 1 } } with hs1
              have hinv1 : ∀ u ∈ s1.tasks, u.rid ≤ s1.latest := by
                intro u hu
                rcases List.mem_or_eq_of_mem_set hu with h | h
                · exact hinv u h
                · subst h; exact htr
              have stepeq : srun s (SChoice.emit i :: cs) =
                  ((srun s1 cs).1, t.rid :: (srun s1 cs).2) := by
                simp [srun, sstep, hgt, hal, hp, hst, hs1]
              obtain ⟨ih1, ih2, ih3, ih4, ih5⟩ := ih s1 hinv1 hgecs hpwcs
              rw [stepeq]
              refine ⟨ih1, ih2, ?_, ?_, ?_⟩
              · intro e he
                rcases List.mem_cons.mp he with h | h
                · subst h; exact le_of_eq hrid.symm
                · exact ih3 e h
              · refine List.pairwise_cons.mpr ⟨?_, ih4⟩
                intro b hb
                exact hrid ▸ ih3 b hb
              · simpa [startRids] using ih5

/-- C1: for every schedule of interaction requests with strictly increasing
response ids handled against one session, the sequence of emitted fragment ids
is non-decreasing — once the first fragment of a higher response id has been
emitted, no fragment for any lower response id is emitted afterwards, because
the emission loop re-checks the shared `response_id` immediately before
forwarding each fragment and breaks for a stale id. -/
theorem supersession_no_stale_after_newer (cs : List SChoice)
    (hstrict : List.Pairwise (· < ·) (startRids cs)) :
    List.Pairwise (· ≤ ·) (srun initState cs).2 := by
  have h := srun_spec cs initState (by simp [initState])
    (fun r _ => Nat.zero_le r)
    (hstrict.imp (fun h => Nat.le_of_lt h))
  exact h.2.2.2.1

/-- Witness for C1 on a concrete interleaving: request 1 starts and emits one
fragment, request 2 starts, the stale task 0 is scheduled again (it breaks
without emitting), task 1 emits; the observed id sequence [1, 2] is
non-decreasing. -/
theorem supersession_no_stale_after_newer_witness :
    List.Pairwise (· < ·)
      (startRids [SChoice.start 1 2, .emit 0, .start 2 1, .emit 0, .emit 1]) ∧
    (srun initState [SChoice.start 1 2, .emit 0, .start 2 1, .emit 0, .emit 1]).2 = [1, 2] ∧
    List.Pairwise (· ≤ ·)
      (srun initState [SChoice.start 1 2, .emit 0, .start 2 1, .emit 0, .emit 1]).2 :=
  ⟨by decide, by decide,
    supersession_no_stale_after_newer _ (by decide)⟩

/-- C3 counterexample: the update of the latest started id in
`handle_response_required` is the unconditional assignment
`response_id = request_json["response_id"]`, so when requests arrive out of
order (response id 5 then response id 3) the latest started id drops from 5 to
3 — it is not monotonically non-decreasing under out-of-order arrival. -/
theorem latest_response_id_decreases_out_of_order :
    (srun initState [SChoice.start 5 0]).1.latest = 5 ∧
    (srun initState [SChoice.start 5 0, SChoice.start 3 0]).1.latest = 3 ∧
    (3 : Nat) < 5 := by
  decide

/-- C3 amended: `response_id` always holds the id of the most recently started
request (an overwrite, not a maximum), hence it is monotonically
non-decreasing across a run exactly when the requests start with
non-decreasing ids; under that ordering every extension of a schedule leaves
the latest started id greater than or equal to its previous value. -/
theorem latest_response_id_monotone_in_order (cs1 cs2 : List SChoice)
    (h : List.Pairwise (· ≤ ·) (startRids (cs1 ++ cs2))) :
    (srun initState cs1).1.latest ≤ (srun initState (cs1 ++ cs2)).1.latest := by
  rw [srun_append]
  have hsplit := startRids_append cs1 cs2
  rw [hsplit] at h
  obtain ⟨h1, h2, hcross⟩ := List.pairwise_append.mp h
  have spec1 := srun_spec cs1 initState (by simp [initState])
    (fun r _ => Nat.zero_le r) h1
  have hge2 : ∀ r ∈ startRids cs2, (srun initState cs1).1.latest ≤ r := by
    intro r hr
    rcases spec1.2.2.2.2 with hsame | hmem
    · rw [hsame]; exact Nat.zero_le r
    · exact hcross _ hmem _ hr
  have spec2 := srun_spec cs2 (srun initState cs1).1 spec1.2.1 hge2 h2
  exact spec2.1

/-- Witness for the amended C3: with in-order requests 3 then 7, the latest
started id moves from 3 up to 7. -/
theorem latest_response_id_monotone_in_order_witness :
    List.Pairwise (· ≤ ·)
      (startRids ([SChoice.start 3 1] ++ [SChoice.start 7 1])) ∧
    (srun initState [SChoice.start 3 1]).1.latest ≤
      (srun initState ([SChoice.start 3 1] ++ [SChoice.start 7 1])).1.latest :=
  ⟨by decide, latest_response_id_monotone_in_order _ _ (by decide)⟩

/-! ## Streaming generation cycle (`app/src/llm.py`, `LlmClient.draft_response`)

The model stream is a list of deltas followed by an optional raised exception;
`json.loads` and `_execute_tool` are supplied as environment parameters.
A Python falsy string field (absent or empty) is modelled as `""`. -/

/-- One incremental tool-call delta of the model stream
(`delta.tool_calls[k]`): its index, id, and name/argument fragments
(`""` when the field is absent or empty, i.e. falsy). -/
structure ToolCallDelta where
  index : Nat
  id : String
  name : String
  arguments : String
deriving Repr, DecidableEq

/-- One streamed chunk's delta: its tool-call deltas and its content
(`""` when absent). -/
structure Delta where
  toolDeltas : List ToolCallDelta
  content : String
deriving Repr, DecidableEq

/-- An accumulated tool-call record
(`{"id": ..., "function": {"name": ..., "arguments": ...}, "type": "function"}`). -/
structure ToolCallRec where
  id : String
  name : String
  arguments : String
deriving Repr, DecidableEq

/-- Accumulation of one tool-call delta into `current_tool_calls`: if the
index is beyond the list, one fresh record is appended (carrying the delta's
id); then a non-empty name fragment *overwrites* the record's name
(`["name"] = tool_call.function.name`) while a non-empty arguments fragment is
*appended* (`["arguments"] += tool_call.function.arguments`).  When the index
skips ahead by more than one, the single append leaves the index out of range
and Python raises an `IndexError` (the `.error` case). -/
def applyToolDelta (cur : List ToolCallRec) (d : ToolCallDelta) :
    Except Unit (List ToolCallRec) :=
  let cur1 := if cur.length ≤ d.index then cur ++ [⟨d.id, "", ""⟩] else cur
  match cur1[d.index]? with
  | none => .error ()
  | some r =>
    let r1 := if d.name ≠ "" then { r with name := d.name } else r
    let r2 := if d.arguments ≠ "" then { r1 with arguments := r1.arguments ++ d.arguments } else r1
    .ok (cur1.set d.index r2)

/-- Accumulate a list of tool-call deltas in order, propagating an
`IndexError`. -/
def applyToolDeltas (cur : List ToolCallRec) : List ToolCallDelta → Except Unit (List ToolCallRec)
  | [] => .ok cur
  | d :: ds =>
    match applyToolDelta cur d with
    | .error e => .error e
    | .ok cur1 => applyToolDeltas cur1 ds

/-- Result of consuming the first model stream: the text fragments forwarded
immediately, the concatenated `current_content`, and the accumulated
`current_tool_calls` (`none` when accumulation raised an `IndexError`). -/
structure StreamPass where
  frames : List ResponseResponse
  content : String
  calls : Option (List ToolCallRec)
deriving Repr

/-- The `async for chunk in response` loop of `draft_response`: each delta
first feeds its tool-call deltas into the accumulator, then (if its content is
truthy) the content is appended to `current_content` and forwarded at once as
a non-complete fragment.  An accumulator `IndexError` aborts the loop. -/
def processDeltas (rid : Nat) : List Delta → List ToolCallRec → String → StreamPass
  | [], acc, content => ⟨[], content, some acc⟩
  | d :: ds, acc, content =>
    match applyToolDeltas acc d.toolDeltas with
    | .error _ => ⟨[], content, none⟩
    | .ok acc1 =>
      if d.content ≠ "" then
        let rest := processDeltas rid ds acc1 (content ++ d.content)
        ⟨⟨rid, d.content, false, false⟩ :: rest.frames, rest.content, rest.calls⟩
      else
        processDeltas rid ds acc1 content

/-- One tool-role result message appended for a tool call
(`{"tool_call_id", "role": "tool", "name", "content"}`). -/
structure ToolResultMsg where
  tool_call_id : String
  role : String
  name : String
  content : String
deriving Repr, DecidableEq

/-- `json.dumps({"error": f"Error executing tool: {e}"})`, the synthesized
error payload for a failed tool call (JSON escaping of `e` not modelled). -/
def errorPayload (e : String) : String :=
  "\x7b\"error\": \"Error executing tool: " ++ e ++ "\"\x7d"

/-- Processing of one accumulated tool call: parse its argument string with
`json.loads`, execute the tool, and on *any* failure synthesize the error
payload instead; either way produce the tool message for this call.
`jsonParse` stands for `json.loads`, `execTool` for `_execute_tool` (whose
`.ok` carries the already-`json.dumps`-serialized result). -/
def toolMessage (jsonParse : String → Except String String)
    (execTool : String → String → Except String String)
    (c : ToolCallRec) : ToolResultMsg :=
  let result : String :=
    match jsonParse c.arguments with
    | .error e => errorPayload e
    | .ok args =>
      match execTool c.name args with
      | .ok r => r
      | .error e => errorPayload e
  ⟨c.id, "tool", c.name, result⟩

/-- The `for tool_call in current_tool_calls` loop: every accumulated tool
call, successful or not, appends exactly one result entry. -/
def toolResults (jsonParse : String → Except String String)
    (execTool : String → String → Except String String)
    (calls : List ToolCallRec) : List ToolResultMsg :=
  calls.map (toolMessage jsonParse execTool)

/-- Environment of one generation cycle: whether `prepare_prompt` raised,
the first model stream (deltas, then an optional raised exception), the
`random.choice` index for the filler phrase, the JSON parser and tool
executor, and the follow-up stream (content deltas, then an optional raised
exception covering both the second `create` call and its iteration). -/
structure CycleEnv where
  promptErr : Bool
  deltas : List Delta
  streamErr : Bool
  fillerChoice : Nat
  jsonParse : String → Except String String
  execTool : String → String → Except String String
  followDeltas : List String
  followErr : Bool

/-- `settings.wait_variants`, the "please hold" filler phrases. -/
def wait_variants : List String :=
  ["Sure thing, just a sec.", "Hold on, let me check.",
   "Got it, give me a moment.", "Of course, let me sort that out.",
   "Alright, let me handle that.", "No problem, just a moment.",
   "Okay, let me get that for you.", "One second, I’m on it.",
   "Alright, let me take care of that.",
   "Sure, just a bit of patience.", "Right away, hold tight.",
   "Absolutely, hang on for a sec.", "Let me get to that real quick.",
   "Certainly, one moment, please.",
   "I’ll take care of it in just a second."]

/-- `random.choice(l)` for a non-empty list, driven by a choice index. -/
def pick (l : List String) (i : Nat) : String := l.getD (i % l.length) ""

/-- The apologetic fragment yielded by the top-level `except` of
`draft_response`. -/
def apologyFrame (rid : Nat) : ResponseResponse :=
  ⟨rid, "I apologize, but I encountered an unexpected error. Could you please try again? ", true, false⟩

/-- The final empty completion fragment of a cycle. -/
def completionFrame (rid : Nat) : ResponseResponse :=
  ⟨rid, "", true, false⟩

/-- The fragments and appended tool messages of one generation cycle. -/
structure CycleOut where
  frames : List ResponseResponse
  toolMsgs : List ToolResultMsg
deriving Repr

/-- `LlmClient.draft_response` (canonical `app/src/llm.py` version) for one
full cycle: stream the first response, forwarding content deltas immediately
and accumulating tool-call deltas; if tool calls accumulated, emit one filler
fragment, execute every tool call (collecting one result message each), run
the follow-up generation and forward its content deltas; finally yield the
empty completion fragment.  Any exception — in `prepare_prompt`, in either
stream, or the accumulator `IndexError` — is caught by the top-level `except`,
which yields a single apologetic fragment marked complete. -/
def draft_response (rid : Nat) (env : CycleEnv) : CycleOut :=
  if env.promptErr then ⟨[apologyFrame rid], []⟩
  else
    let p := processDeltas rid env.deltas [] ""
    match p.calls with
    | none => ⟨p.frames ++ [apologyFrame rid], []⟩
    | some calls =>
      if env.streamErr then ⟨p.frames ++ [apologyFrame rid], []⟩
      else if calls.isEmpty then ⟨p.frames ++ [completionFrame rid], []⟩
      else
        let filler : ResponseResponse := ⟨rid, pick wait_variants env.fillerChoice, false, false⟩
        let results := toolResults env.jsonParse env.execTool calls
        let followFrames := (env.followDeltas.filter (fun c => c ≠ "")).map
          (fun c => (⟨rid, c, false, false⟩ : ResponseResponse))
        if env.followErr then
          ⟨p.frames ++ filler :: followFrames ++ [apologyFrame rid], results⟩
        else
          ⟨p.frames ++ filler :: followFrames ++ [completionFrame rid], results⟩

theorem processDeltas_frames (rid : Nat) (ds : List Delta) :
    ∀ acc content, ∀ f ∈ (processDeltas rid ds acc content).frames,
      f.content_complete = false ∧ f.response_id = rid := by
  induction ds with
  | nil => intro acc content f hf; simp [processDeltas] at hf
  | cons d tl ih =>
    intro acc content f hf
    rw [processDeltas] at hf
    match h : applyToolDeltas acc d.toolDeltas with
    | .error e => rw [h] at hf; simp at hf
    | .ok acc1 =>
      rw [h] at hf
      dsimp only at hf
      by_cases hc : d.content ≠ ""
      · rw [if_pos hc] at hf
        rcases List.mem_cons.mp hf with rfl | hf
        · exact ⟨rfl, rfl⟩
        · exact ih acc1 (content ++ d.content) f hf
      · rw [if_neg hc] at hf
        exact ih acc1 content f hf

/-- C2: every full generation cycle — whether the stream produced tool calls,
only text, or an exception was raised anywhere mid-cycle — emits exactly one
fragment with the completion flag set, it carries the cycle's response id, and
it is the last fragment of the cycle (every earlier fragment is
non-complete). -/
theorem cycle_exactly_one_complete (rid : Nat) (env : CycleEnv) :
    ∃ body last, (draft_response rid env).frames = body ++ [last] ∧
      (∀ f ∈ body, f.content_complete = false ∧ f.response_id = rid) ∧
      last.content_complete = true ∧ last.response_id = rid := by
  unfold draft_response
  by_cases hp : env.promptErr
  · exact ⟨[], apologyFrame rid, by simp [hp], by simp, rfl, rfl⟩
  · rw [if_neg hp]
    dsimp only
    have hframes := processDeltas_frames rid env.deltas [] ""
    match hcalls : (processDeltas rid env.deltas [] "").calls with
    | none =>
      exact ⟨(processDeltas rid env.deltas [] "").frames, apologyFrame rid,
        rfl, hframes, rfl, rfl⟩
    | some calls =>
      dsimp only
      by_cases hse : env.streamErr
      · rw [if_pos hse]
        exact ⟨(processDeltas rid env.deltas [] "").frames, apologyFrame rid,
          rfl, hframes, rfl, rfl⟩
      · rw [if_neg hse]
        by_cases hemp : calls.isEmpty
        · rw [if_pos hemp]
          exact ⟨(processDeltas rid env.deltas [] "").frames, completionFrame rid,
            rfl, hframes, rfl, rfl⟩
        · rw [if_neg hemp]
          set filler : ResponseResponse := ⟨rid, pick wait_variants env.fillerChoice, false, false⟩ with hfil
          set followFrames : List ResponseResponse :=
            (env.followDeltas.filter (fun c => c ≠ "")).map
              (fun c => (⟨rid, c, false, false⟩ : ResponseResponse)) with hff
          have hbody : ∀ f ∈ (processDeltas rid env.deltas [] "").frames ++ filler :: followFrames,
              f.content_complete = false ∧ f.response_id = rid := by
            intro f hf
            rcases List.mem_append.mp hf with h | h
            · exact hframes f h
            · rcases List.mem_cons.mp h with rfl | h
              · exact ⟨rfl, rfl⟩
              · rw [hff] at h
                obtain ⟨c, _, rfl⟩ := List.mem_map.mp h
                exact ⟨rfl, rfl⟩
          by_cases hfe : env.followErr
          · refine ⟨(processDeltas rid env.deltas [] "").frames ++ filler :: followFrames,
              apologyFrame rid, ?_, hbody, rfl, rfl⟩
            simp [hfe]
          · refine ⟨(processDeltas rid env.deltas [] "").frames ++ filler :: followFrames,
              completionFrame rid, ?_, hbody, rfl, rfl⟩
            simp [hfe]

/-- A tool call whose name arrives split over two deltas of the same index
(with the argument string also split): the shape claimed by the spec to be
reassembled in full. -/
def splitNameDeltas : List ToolCallDelta :=
  [⟨0, "call_1", "Places", "\x7b\"location\": \"soho\""⟩,
   ⟨0, "", "Search", ", \"query_type\": \"parks\"\x7d"⟩]

/-- C4 counterexample: when the tool-call *name* arrives split across two
deltas ("Places" then "Search"), the accumulation loop's assignment
`["name"] = tool_call.function.name` overwrites instead of appending, so the
record ends with name "Search", not the full name "PlacesSearch" — while the
argument string, accumulated with `+=`, is reassembled in full. -/
theorem tool_name_not_reassembled :
    applyToolDeltas [] splitNameDeltas =
      .ok [⟨"call_1", "Search", "\x7b\"location\": \"soho\", \"query_type\": \"parks\"\x7d"⟩] ∧
    ("Search" : String) ≠ "Places" ++ "Search" := by
  refine ⟨by rfl, by decide⟩

theorem applyToolDelta_zero (d : ToolCallDelta) (r : ToolCallRec) (hd0 : d.index = 0) :
    applyToolDelta [r] d =
      .ok [⟨r.id, if d.name ≠ "" then d.name else r.name, r.arguments ++ d.arguments⟩] := by
  rcases eq_or_ne d.arguments "" with ha | ha <;> rcases eq_or_ne d.name "" with hn | hn <;>
    simp [applyToolDelta, hd0, ha, hn, String.append_empty]

theorem applyToolDeltas_singleton (ds : List ToolCallDelta) : ∀ r : ToolCallRec,
    (∀ d ∈ ds, d.index = 0) →
    applyToolDeltas [r] ds = .ok [⟨r.id,
      ds.foldl (fun a d => if d.name ≠ "" then d.name else a) r.name,
      ds.foldl (fun a d => a ++ d.arguments) r.arguments⟩] := by
  induction ds with
  | nil => intro r _; rfl
  | cons d tl ih =>
    intro r hidx
    have hd0 : d.index = 0 := hidx d (by simp)
    have hstep : applyToolDeltas [r] (d :: tl) =
        applyToolDeltas [⟨r.id, if d.name ≠ "" then d.name else r.name,
          r.arguments ++ d.arguments⟩] tl := by
      rw [applyToolDeltas, applyToolDelta_zero d r hd0]
    rw [hstep, ih _ (fun d hd => hidx d (by simp [hd]))]
    simp

/-- C4 amended: for a tool call delivered as N in-order deltas with the same
fixed index, the accumulation loop reassembles the *argument string* in full
(the concatenation of all argument fragments, handed to `json.loads` for the
Tool Invoker), and keeps the id of the first delta; the *name*, however, is
the last non-empty name fragment — the full name only when the name arrives
in a single delta. -/
theorem tool_call_reassembly_amended (d0 : ToolCallDelta) (ds : List ToolCallDelta)
    (hidx : ∀ d ∈ (d0 :: ds), d.index = 0) :
    applyToolDeltas [] (d0 :: ds) = .ok [⟨d0.id,
      (d0 :: ds).foldl (fun a d => if d.name ≠ "" then d.name else a) "",
      (d0 :: ds).foldl (fun a d => a ++ d.arguments) ""⟩] := by
  have hd0 : d0.index = 0 := hidx d0 (by simp)
  have hstep : applyToolDelta [] d0 =
      .ok [⟨d0.id, if d0.name ≠ "" then d0.name else "", "" ++ d0.arguments⟩] := by
    rcases eq_or_ne d0.arguments "" with ha | ha <;> rcases eq_or_ne d0.name "" with hn | hn <;>
      simp [applyToolDelta, hd0, ha, hn, String.append_empty, String.empty_append]
  have hfirst : applyToolDeltas [] (d0 :: ds) =
      applyToolDeltas [⟨d0.id, if d0.name ≠ "" then d0.name else "",
        "" ++ d0.arguments⟩] ds := by
    rw [applyToolDeltas, hstep]
  rw [hfirst, applyToolDeltas_singleton ds _ (fun d hd => hidx d (by simp [hd]))]
  simp

/-- Witness for the amended C4: a tool call split over three deltas of index
0; the accumulated record carries the first delta's id, the last non-empty
name fragment, and the fully concatenated argument string. -/
theorem tool_call_reassembly_amended_witness :
    (∀ d ∈ [(⟨0, "call_9", "PlacesSearch", ""⟩ : ToolCallDelta),
            ⟨0, "", "", "\x7b\"location\":"⟩, ⟨0, "", "", " \"soho\"\x7d"⟩], d.index = 0) ∧
    applyToolDeltas [] [(⟨0, "call_9", "PlacesSearch", ""⟩ : ToolCallDelta),
        ⟨0, "", "", "\x7b\"location\":"⟩, ⟨0, "", "", " \"soho\"\x7d"⟩] =
      .ok [⟨"call_9", "PlacesSearch", "\x7b\"location\": \"soho\"\x7d"⟩] := by
  refine ⟨by decide, ?_⟩
  have h := tool_call_reassembly_amended (⟨0, "call_9", "PlacesSearch", ""⟩ : ToolCallDelta)
    [⟨0, "", "", "\x7b\"location\":"⟩, ⟨0, "", "", " \"soho\"\x7d"⟩] (by decide)
  rw [h]
  rfl

/-- C5: every accumulated tool call of a cycle — whether its argument parse
and execution succeed or fail — contributes exactly one result entry, keyed by
its call identifier, to the tool-result list fed into the follow-up
generation (`List.Forall₂` forces equal lengths and pointwise keying); and no
parse/execution failure aborts the rest of the cycle: the emitted fragment
sequence is the same whatever the parser and executor return. -/
theorem tool_results_one_entry_per_call
    (jp : String → Except String String)
    (ex : String → String → Except String String) (calls : List ToolCallRec)
    (rid : Nat) (env : CycleEnv) :
    List.Forall₂ (fun m c => m.tool_call_id = c.id ∧ m.name = c.name)
      (toolResults jp ex calls) calls ∧
    (draft_response rid env).frames =
      (draft_response rid { env with jsonParse := jp, execTool := ex }).frames := by
  constructor
  · induction calls with
    | nil => simp [toolResults]
    | cons c tl ih => exact List.Forall₂.cons ⟨rfl, rfl⟩ ih
  · rcases env with ⟨pe, ds, se, fc, jp0, ex0, fd, fe⟩
    dsimp only
    by_cases hp : pe
    · simp [draft_response, hp]
    · rcases hcalls : (processDeltas rid ds [] "").calls with _ | cs
      · simp [draft_response, hp, hcalls]
      · by_cases hse : se
        · simp [draft_response, hp, hcalls, hse]
        · by_cases hemp : cs.isEmpty
          · simp [draft_response, hp, hcalls, hse, hemp]
          · by_cases hfe : fe <;>
              simp [draft_response, hp, hcalls, hse, hemp, hfe]

/-! ## Frame handling and fault containment (`app/server.py`,
`handle_response_required`) -/

/-- One transcript utterance `{role, content}`. -/
structure Utterance where
  role : String
  content : String
deriving Repr, DecidableEq

/-- `ResponseRequiredRequest` of `custom_types`. -/
structure ResponseRequiredRequest where
  interaction_type : String
  response_id : Nat
  transcript : List Utterance
deriving Repr, DecidableEq

/-- An inbound `response_required` / `reminder_required` frame as received:
`response_id` and `transcript` are `none` when the key is missing from the
JSON object (so that subscripting raises a `KeyError`). -/
structure InboundFrame where
  interaction_type : String
  response_id : Option Nat
  transcript : Option (List Utterance)
deriving Repr, DecidableEq

/-- `handle_response_required(request_json)` of `app/server.py`, handling one
frame sequentially (no concurrent task starts, so the supersession check
`request.response_id < response_id` never trips).  Returns the frames sent on
the websocket and the final value of the `nonlocal response_id`.

Fault paths, mirroring the source: a missing `response_id` key raises a
`KeyError` before `request` is bound, the `except` handler then evaluates
`request.response_id`, which raises `UnboundLocalError`; the inner
`except Exception as send_error` swallows it, so *no* frame is sent.  A
missing `transcript` key fails the same way, but after the `nonlocal
response_id` was already overwritten.  In every path the function returns
normally: the fault never reaches the receive or heartbeat loops. -/
def handle_response_required (latest : Nat) (frame : InboundFrame)
    (draft : ResponseRequiredRequest -> List ResponseResponse) :
    List ResponseResponse × Nat :=
  match frame.response_id with
  | none => ([], latest)
  | some rid =>
    match frame.transcript with
    | none => ([], rid)
    | some tr =>
      let request : ResponseRequiredRequest := ⟨frame.interaction_type, rid, tr⟩
      (draft request, rid)

/-- A malformed `response_required` frame: the `response_id` key is missing. -/
def framedMissingId : InboundFrame := ⟨"response_required", none, some []⟩

/-- C6 (code bug): handling a malformed `response_required` frame whose
`response_id` is missing emits *no* frame at all — in particular no generic
apologetic frame with the completion flag set — even when the generation
engine would have produced output; the handler's own error path (which exists
precisely to emit that apologetic frame) dies on the unbound `request`
variable and is swallowed.  The fault is still contained: the handler returns
normally, so the receive and heartbeat loops survive. -/
theorem malformed_frame_emits_no_frame :
    handle_response_required 0 framedMissingId
      (fun r => [⟨r.response_id, "hello", true, false⟩]) = ([], 0) := by
  rfl

/-! ## Greeting selection (`app/src/llm.py`, `LlmClient.draft_begin_message`)

String apostrophes are written with the `\x27` escape. -/

/-- The `retell_llm_dynamic_variables` metadata of a call: each field is
`none` when the key is absent (`dict.get` semantics). -/
structure Metadata where
  user_name : Option String
  bot_name : Option String
  first_interaction : Option String
  user_id : Option String
  drew_id : Option String
deriving Repr, DecidableEq

/-- `get_time_based_greeting`: bucket the current hour. -/
def get_time_based_greeting (hour : Nat) : String :=
  if 5 ≤ hour ∧ hour < 12 then "Good morning"
  else if 12 ≤ hour ∧ hour < 17 then "Good afternoon"
  else if 17 ≤ hour ∧ hour < 22 then "Good evening"
  else "Happy late night"

/-- `custom_wait_variants`, the generic greetings used when no metadata has
been received. -/
def customWaitVariants (tg : String) : List String :=
  [tg ++ "! I\x27m Drew. How can I assist you today?",
   tg ++ "! I\x27m Drew. What do you need help with?",
   tg ++ "! I\x27m Drew. Ready to get started?",
   tg ++ "! I\x27m Drew. How\x27s your day going?",
   "Hey there! I\x27m Drew. How can I support you today?",
   "Hello! I\x27m Drew. What\x27s on your mind?",
   tg ++ "! I\x27m Drew. Let\x27s make today productive!",
   tg ++ "! I\x27m Drew. Let me know how I can help!",
   "Hi! I\x27m Drew. Need help with anything?",
   "Hey! I\x27m Drew. What\x27s the plan for today?"]

/-- The onboarding `custom_greeting` list chosen when
`metadata.get('first_interaction') == "true"`. -/
def onboardingGreetings (tg u b : String) : List String :=
  [tg ++ ", " ++ u ++ "! Welcome aboard! I\x27m " ++ b ++ ", your personal assistant. I help manage leads, schedule appointments, track key metrics, and keep your workflow seamless. Let\x27s get started!",
   "Hey " ++ u ++ ", great to have you here! I\x27m " ++ b ++ ", your AI-powered assistant. I\x27ll help you stay organized by managing leads, scheduling, and tracking key performance metrics. Let\x27s make things efficient!",
   tg ++ ", " ++ u ++ "! I\x27m " ++ b ++ ", your virtual assistant. I handle lead management, scheduling, and performance tracking so you can focus on closing more deals.",
   "Welcome, " ++ u ++ "! I\x27m " ++ b ++ ", designed to help you streamline your workflow by managing leads, scheduling appointments, and keeping track of your business performance.",
   "Nice to meet you, " ++ u ++ "! I\x27m " ++ b ++ ", your smart assistant. I help you stay on top of leads, appointments, and key insights, making your workflow smoother and more efficient.",
   tg ++ ", " ++ u ++ "! Congrats on getting started! I\x27m " ++ b ++ ", your AI assistant, here to help with lead tracking, scheduling, and performance insights. Let\x27s get things rolling!",
   "Hey " ++ u ++ "! I\x27m " ++ b ++ ", your personal assistant! I\x27ll handle scheduling, lead tracking, and key insights so you can focus on growing your business. Let\x27s get started!",
   tg ++ ", " ++ u ++ "! I\x27m " ++ b ++ ", your AI-powered real estate assistant. I\x27ll keep your workflow organized, track your performance, and help you stay productive. Let\x27s go!"]

/-- The contextual `custom_greeting` list chosen for a returning user. -/
def contextualGreetings (tg u : String) : List String :=
  [tg ++ ", " ++ u ++ "! Hope you\x27re having a great day!",
   "Hey " ++ u ++ ", how\x27s your day going?",
   "Hi " ++ u ++ ", How\x27s your day going?",
   "Good to see you, " ++ u ++ "! What\x27s on your plate today?",
   tg ++ ", " ++ u ++ ". How can I assist you today?",
   "Hello, " ++ u ++ ". Let me know how I can help!",
   tg ++ ", " ++ u ++ ". Ready to tackle the day?",
   "Welcome back, " ++ u ++ ". What\x27s your priority today?",
   "Hey " ++ u ++ ", let\x27s make today productive!",
   tg ++ ", " ++ u ++ "! Ready to close some deals?",
   "Hope you\x27re feeling great, " ++ u ++ "! Let\x27s get started.",
   tg ++ ", " ++ u ++ "! What\x27s the next big win for today?",
   "Hi " ++ u ++ ", how\x27s business looking today?",
   "Hey " ++ u ++ ", anything exciting happening in real estate?",
   tg ++ ", " ++ u ++ "! What\x27s on your mind?",
   "Hello, " ++ u ++ ". Need help with anything specific?"]

/-- `settings.opening_lines`, the stock openers used when metadata is present
but no user name is set. -/
def opening_lines : List String :=
  ["Hi, I\x27m Drew, your virtual real estate assistant. How can I help you today?",
   "Hello, I\x27m Drew! Ready to assist with all your real estate needs. What can I do for you?",
   "Hey there, I\x27m Drew! Looking for your dream home or need help with your listings?",
   "Hi, I\x27m Drew. Let\x27s find the perfect property or tackle your real estate tasks together!",
   "Hello, I\x27m Drew, your AI assistant. Let\x27s make your real estate journey smoother. What\x27s on your mind?",
   "Hi, I\x27m Drew! Here to help with buying, selling, or managing your real estate needs.",
   "Hello, I\x27m Drew. Whether it\x27s scheduling a showing or finding leads, I\x27ve got you covered!",
   "Hi there, I\x27m Drew! Ready to help with everything from listings to leads. How can I assist?",
   "Hey, I\x27m Drew, your personal real estate assistant. Let\x27s get to work!",
   "Hi, I\x27m Drew! Need help finding a home or managing your clients? Just say the word!"]

/-- Greeting selection of `draft_begin_message` (canonical `app/src/llm.py`
version): no metadata yields the generic variants; with metadata,
`first_interaction == "true"` selects the onboarding list, otherwise the
contextual list — but the chosen list is only used when `user_name` is truthy
(`random.choice(custom_greeting) if user_name else
random.choice(settings.opening_lines)`). -/
def draft_begin_greeting (md : Option Metadata) (hour choice : Nat) : String :=
  let time_greeting := get_time_based_greeting hour
  match md with
  | none => pick (customWaitVariants time_greeting) choice
  | some m =>
    let user_name := m.user_name.getD ""
    let bot_name := m.bot_name.getD "Drew"
    let custom_greeting :=
      if m.first_interaction = some "true" then
        onboardingGreetings time_greeting user_name bot_name
      else
        contextualGreetings time_greeting user_name
    if user_name ≠ "" then pick custom_greeting choice else pick opening_lines choice

/-- `draft_begin_message` wraps the selected greeting in a complete frame for
response id 0 (and appends it to the message history, not modelled here). -/
def draft_begin_message (md : Option Metadata) (hour choice : Nat) : ResponseResponse :=
  ⟨0, draft_begin_greeting md hour choice, true, false⟩

theorem pick_mem (l : List String) (i : Nat) (h : l ≠ []) : pick l i ∈ l := by
  have hlen : 0 < l.length := List.length_pos.mpr h
  have hi : i % l.length < l.length := Nat.mod_lt _ hlen
  rw [pick, List.getD_eq_getElem l "" hi]
  exact List.getElem_mem hi

theorem onboarding_contains_bot_name (tg u b : String) :
    ∀ g ∈ onboardingGreetings tg u b, ∃ p q, g = p ++ b ++ q := by
  intro g hg
  simp only [onboardingGreetings, List.mem_cons, List.not_mem_nil, or_false] at hg
  rcases hg with rfl | rfl | rfl | rfl | rfl | rfl | rfl | rfl
  · exact ⟨tg ++ ", " ++ u ++ "! Welcome aboard! I\x27m ", _, rfl⟩
  · exact ⟨"Hey " ++ u ++ ", great to have you here! I\x27m ", _, rfl⟩
  · exact ⟨tg ++ ", " ++ u ++ "! I\x27m ", _, rfl⟩
  · exact ⟨"Welcome, " ++ u ++ "! I\x27m ", _, rfl⟩
  · exact ⟨"Nice to meet you, " ++ u ++ "! I\x27m ", _, rfl⟩
  · exact ⟨tg ++ ", " ++ u ++ "! Congrats on getting started! I\x27m ", _, rfl⟩
  · exact ⟨"Hey " ++ u ++ "! I\x27m ", _, rfl⟩
  · exact ⟨tg ++ ", " ++ u ++ "! I\x27m ", _, rfl⟩

theorem contextual_contains_user_name (tg u : String) :
    ∀ g ∈ contextualGreetings tg u, ∃ p q, g = p ++ u ++ q := by
  intro g hg
  simp only [contextualGreetings, List.mem_cons, List.not_mem_nil, or_false] at hg
  rcases hg with rfl | rfl | rfl | rfl | rfl | rfl | rfl | rfl | rfl | rfl | rfl | rfl | rfl | rfl | rfl | rfl
  · exact ⟨tg ++ ", ", _, rfl⟩
  · exact ⟨"Hey ", _, rfl⟩
  · exact ⟨"Hi ", _, rfl⟩
  · exact ⟨"Good to see you, ", _, rfl⟩
  · exact ⟨tg ++ ", ", _, rfl⟩
  · exact ⟨"Hello, ", _, rfl⟩
  · exact ⟨tg ++ ", ", _, rfl⟩
  · exact ⟨"Welcome back, ", _, rfl⟩
  · exact ⟨"Hey ", _, rfl⟩
  · exact ⟨tg ++ ", ", _, rfl⟩
  · exact ⟨"Hope you\x27re feeling great, ", _, rfl⟩
  · exact ⟨tg ++ ", ", _, rfl⟩
  · exact ⟨"Hi ", _, rfl⟩
  · exact ⟨"Hey ", _, rfl⟩
  · exact ⟨tg ++ ", ", _, rfl⟩
  · exact ⟨"Hello, ", _, rfl⟩

/-- Metadata of a first interaction with a configured assistant name but no
user name. -/
def onboardingNoName : Metadata := ⟨none, some "Alex", some "true", none, none⟩

/-- C7 counterexample: with metadata present and the first-interaction flag
set, but no user name, the greeting is drawn from the stock
`settings.opening_lines` (which speak of "Drew") and is *not* one of the
onboarding greetings built around the configured assistant name "Alex". -/
theorem onboarding_without_user_name_not_onboarding :
    draft_begin_greeting (some onboardingNoName) 10 0 =
      "Hi, I\x27m Drew, your virtual real estate assistant. How can I help you today?" ∧
    "Hi, I\x27m Drew, your virtual real estate assistant. How can I help you today?" ∉
      onboardingGreetings (get_time_based_greeting 10) "" "Alex" := by
  refine ⟨rfl, by decide⟩

/-- C7 amended: greeting selection follows the deterministic priority
(a) metadata absent, greeting from the generic time-of-day variants;
(b) metadata present, first-interaction flag equal to "true" *and a non-empty
user name*, an onboarding greeting containing the configured assistant name;
(c) metadata present, no first-interaction flag, non-empty user name, a
contextual greeting containing that user name; (d) metadata present but the
user name empty or unset, a stock opening line — regardless of the
first-interaction flag. -/
theorem greeting_priority_amended (md : Option Metadata) (hour choice : Nat) :
    (md = none →
      draft_begin_greeting md hour choice ∈
        customWaitVariants (get_time_based_greeting hour)) ∧
    (∀ m, md = some m → m.user_name.getD "" ≠ "" → m.first_interaction = some "true" →
      draft_begin_greeting md hour choice ∈
        onboardingGreetings (get_time_based_greeting hour) (m.user_name.getD "")
          (m.bot_name.getD "Drew") ∧
      ∃ p q, draft_begin_greeting md hour choice = p ++ m.bot_name.getD "Drew" ++ q) ∧
    (∀ m, md = some m → m.user_name.getD "" ≠ "" → m.first_interaction ≠ some "true" →
      draft_begin_greeting md hour choice ∈
        contextualGreetings (get_time_based_greeting hour) (m.user_name.getD "") ∧
      ∃ p q, draft_begin_greeting md hour choice = p ++ m.user_name.getD "" ++ q) ∧
    (∀ m, md = some m → m.user_name.getD "" = "" →
      draft_begin_greeting md hour choice ∈ opening_lines) := by
  refine ⟨?_, ?_, ?_, ?_⟩
  · rintro rfl
    exact pick_mem _ choice (by simp [customWaitVariants])
  · rintro m rfl hu hfi
    have hsel : draft_begin_greeting (some m) hour choice =
        pick (onboardingGreetings (get_time_based_greeting hour) (m.user_name.getD "")
          (m.bot_name.getD "Drew")) choice := by
      simp only [draft_begin_greeting]
      rw [if_pos hfi, if_pos hu]
    have hmem : draft_begin_greeting (some m) hour choice ∈
        onboardingGreetings (get_time_based_greeting hour) (m.user_name.getD "")
          (m.bot_name.getD "Drew") := by
      rw [hsel]; exact pick_mem _ choice (by simp [onboardingGreetings])
    exact ⟨hmem, onboarding_contains_bot_name _ _ _ _ hmem⟩
  · rintro m rfl hu hfi
    have hsel : draft_begin_greeting (some m) hour choice =
        pick (contextualGreetings (get_time_based_greeting hour) (m.user_name.getD "")) choice := by
      simp only [draft_begin_greeting]
      rw [if_neg hfi, if_pos hu]
    have hmem : draft_begin_greeting (some m) hour choice ∈
        contextualGreetings (get_time_based_greeting hour) (m.user_name.getD "") := by
      rw [hsel]; exact pick_mem _ choice (by simp [contextualGreetings])
    exact ⟨hmem, contextual_contains_user_name _ _ _ hmem⟩
  · rintro m rfl hu
    have hsel : draft_begin_greeting (some m) hour choice = pick opening_lines choice := by
      simp only [draft_begin_greeting]
      rw [if_neg (by simp [hu])]
    exact hsel ▸ pick_mem _ choice (by simp [opening_lines])

/-- Witness for the amended C7 at concrete inputs, one per branch. -/
theorem greeting_priority_amended_witness :
    draft_begin_greeting none 10 3 ∈ customWaitVariants (get_time_based_greeting 10) ∧
    draft_begin_greeting (some ⟨some "Sam", some "Aria", some "true", none, none⟩) 13 1 ∈
      onboardingGreetings (get_time_based_greeting 13) "Sam" "Aria" ∧
    draft_begin_greeting (some ⟨some "Sam", none, none, none, none⟩) 23 2 ∈
      contextualGreetings (get_time_based_greeting 23) "Sam" ∧
    draft_begin_greeting (some ⟨none, none, some "true", none, none⟩) 9 0 ∈ opening_lines := by
  refine ⟨?_, ?_, ?_, ?_⟩
  · exact (greeting_priority_amended none 10 3).1 rfl
  · exact ((greeting_priority_amended
      (some ⟨some "Sam", some "Aria", some "true", none, none⟩) 13 1).2.1 _ rfl
      (by decide) rfl).1
  · exact ((greeting_priority_amended
      (some ⟨some "Sam", none, none, none, none⟩) 23 2).2.2.1 _ rfl
      (by decide) (by decide)).1
  · exact (greeting_priority_amended
      (some ⟨none, none, some "true", none, none⟩) 9 0).2.2.2 _ rfl rfl

/-! ## Call-request validation (`app/models/models.py`, `CallRequest.execute`) -/

/-- A parsed naive `datetime`: the proleptic day ordinal of its `.date()` and
an abstract time of day.  `now + timedelta(days=1)` adds one to the day
ordinal and keeps the time of day. -/
structure PyDateTime where
  day : Int
  timeOfDay : Nat
deriving Repr, DecidableEq

/-- The backend reply to `POST {backend_url}/initiate_call`: its HTTP status
and payload, with the payload's optional `message` field kept separately for
the error branch. -/
structure BackendResponse where
  status : Nat
  payload : String
  message : Option String
deriving Repr, DecidableEq

/-- Result of `CallRequest.execute`: the returned response payload, the
`ValueError` raised by the call-time validation, or the `ValueError` raised
for an unexpected backend status (both re-raised unchanged by the trailing
`except`). -/
inductive CallOutcome where
  | ok (payload : String)
  | validationError (msg : String)
  | backendError (msg : String)
deriving Repr, DecidableEq

/-- `CallRequest.execute(backend_url, user_id)` with the call time already
parsed (`datetime.fromisoformat`): validate that `call_datetime.date()` is in
`[now.date(), (now + timedelta(days=1)).date()]`, raising a `ValueError`
before any HTTP request otherwise; then dispatch to the backend, accepting
status 200/202, surfacing 300 (multiple leads) and 404 (no leads) payloads
as-is, and raising for anything else.  The second component records whether
the backend endpoint was invoked. -/
def callRequestExecute (callTime now : PyDateTime) (backend : BackendResponse) :
    CallOutcome × Bool :=
  let tomorrow : PyDateTime := ⟨now.day + 1, now.timeOfDay⟩
  if callTime.day ≠ now.day ∧ callTime.day ≠ tomorrow.day then
    (.validationError "Call time must be either now (today) or the next day.", false)
  else if backend.status = 200 ∨ backend.status = 202 then (.ok backend.payload, true)
  else if backend.status = 300 then (.ok backend.payload, true)
  else if backend.status = 404 then (.ok backend.payload, true)
  else (.backendError ("Booking failed: " ++ backend.message.getD "Unknown error occurred"), true)

/-- C8: call-time validation accepts exactly the call times whose date is
today or the following calendar day — independent of the time of day — and
any other date is rejected with the specific validation error (not a generic
failure) before the backend endpoint is ever invoked. -/
theorem call_time_validated_today_or_tomorrow
    (callTime now : PyDateTime) (backend : BackendResponse) :
    (callTime.day = now.day ∨ callTime.day = now.day + 1 →
      (callRequestExecute callTime now backend).2 = true ∧
      ∀ msg, (callRequestExecute callTime now backend).1 ≠ .validationError msg) ∧
    (callTime.day ≠ now.day ∧ callTime.day ≠ now.day + 1 →
      callRequestExecute callTime now backend =
        (.validationError "Call time must be either now (today) or the next day.", false)) := by
  constructor
  · intro hvalid
    have hcond : ¬(callTime.day ≠ now.day ∧ callTime.day ≠ now.day + 1) := by
      rcases hvalid with h | h <;> simp [h]
    rw [callRequestExecute]
    by_cases h1 : backend.status = 200 ∨ backend.status = 202 <;>
    by_cases h2 : backend.status = 300 <;>
    by_cases h3 : backend.status = 404 <;>
      simp [hcond, h1, h2, h3]
  · intro hinvalid
    rw [callRequestExecute]
    simp [hinvalid]

/-- Witness for C8: with "now" on day 738000 at 09:00, a call today at 14:00
is accepted and reaches the backend, a call tomorrow is accepted, and a call
three days out is rejected with the validation error and no backend call. -/
theorem call_time_validated_today_or_tomorrow_witness :
    (callRequestExecute ⟨738000, 840⟩ ⟨738000, 540⟩ ⟨202, "ack", none⟩).2 = true ∧
    (callRequestExecute ⟨738001, 840⟩ ⟨738000, 540⟩ ⟨202, "ack", none⟩).2 = true ∧
    callRequestExecute ⟨738003, 840⟩ ⟨738000, 540⟩ ⟨202, "ack", none⟩ =
      (.validationError "Call time must be either now (today) or the next day.", false) := by
  refine ⟨?_, ?_, ?_⟩
  · exact ((call_time_validated_today_or_tomorrow ⟨738000, 840⟩ ⟨738000, 540⟩
      ⟨202, "ack", none⟩).1 (Or.inl rfl)).1
  · exact ((call_time_validated_today_or_tomorrow ⟨738001, 840⟩ ⟨738000, 540⟩
      ⟨202, "ack", none⟩).1 (Or.inr rfl)).1
  · exact (call_time_validated_today_or_tomorrow ⟨738003, 840⟩ ⟨738000, 540⟩
      ⟨202, "ack", none⟩).2 (by decide)

/-! ## Session teardown (`app/src/llm.py`, `LlmClient.cleanup`) -/

/-- The Retell `get-call` record, as used by `cleanup`: the
`call_analysis.call_summary` field (`none` when `call_analysis` is missing or
has no summary; an empty string is falsy and treated as unavailable),
`duration_ms`, `start_timestamp` (ms), and `recording_url`. -/
structure RetellCallData where
  call_summary : Option String
  duration_ms : Nat
  start_timestamp : Nat
  recording_url : String
deriving Repr, DecidableEq

/-- Truthiness of `call_data["call_analysis"].get("call_summary")`. -/
def hasSummary (d : RetellCallData) : Bool :=
  match d.call_summary with
  | some s => s ≠ ""
  | none => false

/-- One poll of the Retell `get-call` endpoint: HTTP status and body. -/
structure PollResult where
  status : Nat
  data : RetellCallData
deriving Repr, DecidableEq

/-- The record POSTed to `{backend_url}/save_communication` by `cleanup`
(`call_time` modelled as whole seconds of `start_timestamp / 1000`). -/
structure SaveCommunicationData where
  user_id : Int
  drew_id : Option String
  type : String
  status : String
  notes : String
  recording_url : String
  duration : Nat
  call_time : Nat
  call_id : String
deriving Repr, DecidableEq

/-- The session fields cleared by `cleanup`'s `finally` block. -/
structure LlmState where
  call_id : Option String
  metadata : Option Metadata
  message_history : List (String × String)
  conversations : List (String × List String)
deriving Repr, DecidableEq

/-- Model of Python `int(str)` on the decimal strings that occur here: an
optional minus sign followed by one or more ASCII digits; anything else
raises a `ValueError` (`none`). -/
def pyIntOfString (s : String) : Option Int :=
  let digits : List Char -> Option Nat := fun cs =>
    cs.foldl (fun acc c =>
      match acc with
      | none => none
      | some n => if 48 ≤ c.toNat ∧ c.toNat ≤ 57 then some (n * 10 + (c.toNat - 48)) else none)
      (some 0)
  match s.data with
  | [] => none
  | c :: cs =>
    if c = Char.ofNat 45 then
      match cs with
      | [] => none
      | _ => (digits cs).map (fun n => -(n : Int))
    else (digits (c :: cs)).map (fun n => (n : Int))

/-- Building the persistence record: `int(user_id)` raises a `ValueError`
(caught by the top-level handler) when the user id is not numeric; otherwise
`duration = int(duration_ms / 1000)`. -/
def mkSave (cid uid : String) (did : Option String) (d : RetellCallData) :
    Except Unit SaveCommunicationData :=
  match pyIntOfString uid with
  | none => .error ()
  | some n => .ok ⟨n, did, "CALL", "successful", d.call_summary.getD "",
      d.recording_url, d.duration_ms / 1000, d.start_timestamp / 1000, cid⟩

/-- The `for attempt in range(max_retries)` polling loop of `cleanup`, with
`max_retries = 3` and a 2-second sleep between attempts (real time not
modelled).  `polls attempt = none` stands for a network exception, which
propagates to `cleanup`'s `except`.  A 200 response with a truthy summary
saves exactly one record and breaks; a 200 without a summary retries; any
other status breaks without saving. -/
def pollLoop (mk : RetellCallData -> Except Unit SaveCommunicationData)
    (polls : Nat -> Option PollResult) (attempt : Nat) :
    Nat -> Except Unit (List SaveCommunicationData)
  | 0 => .ok []
  | remaining + 1 =>
    match polls attempt with
    | none => .error ()
    | some pr =>
      if pr.status = 200 then
        if hasSummary pr.data then
          match mk pr.data with
          | .error e => .error e
          | .ok rec0 => .ok [rec0]
        else pollLoop mk polls (attempt + 1) remaining
      else .ok []

/-- `LlmClient.cleanup`: when the call id, metadata and user id are all set
(truthy), poll for the call summary and persist at most one communication
record; any exception is caught and logged; the `finally` block always clears
the message history, conversations, metadata and call id.  Returns the list
of persistence calls made and the final session state. -/
def cleanup (st : LlmState) (polls : Nat -> Option PollResult) :
    List SaveCommunicationData × LlmState :=
  let saves :=
    match st.call_id, st.metadata with
    | some cid, some md =>
      if cid ≠ "" then
        match md.user_id with
        | some uid =>
          if uid ≠ "" then
            match pollLoop (mkSave cid uid md.drew_id) polls 0 3 with
            | .ok s => s
            | .error _ => []
          else []
        | none => []
      else []
    | _, _ => []
  (saves, ⟨none, none, [], []⟩)

theorem pollLoop_no_summary (mk : RetellCallData -> Except Unit SaveCommunicationData)
    (polls : Nat -> Option PollResult) : ∀ remaining attempt,
    (∀ j, attempt ≤ j → j < attempt + remaining → ∀ prj, polls j = some prj →
      prj.status = 200 → hasSummary prj.data = false) →
    pollLoop mk polls attempt remaining = .ok [] ∨
      pollLoop mk polls attempt remaining = .error () := by
  intro remaining
  induction remaining with
  | zero => intro attempt _; left; rfl
  | succ rem ih =>
    intro attempt hno
    rw [pollLoop]
    match hp : polls attempt with
    | none => right; rfl
    | some pr =>
      dsimp only
      by_cases h200 : pr.status = 200
      · have hsum : hasSummary pr.data = false :=
          hno attempt (le_refl _) (by omega) pr hp h200
        rw [if_pos h200, hsum]
        simp only [Bool.false_eq_true, if_false]
        exact ih (attempt + 1) (fun j hj1 hj2 => hno j (by omega) (by omega))
      · rw [if_neg h200]; left; rfl

/-- C9: on cleanup with the call id and a numeric user id set,
(1) if the first summary-bearing 200 response arrives at attempt `i` within
the 3-attempt budget (earlier attempts returning 200 without a summary),
exactly one persistence call is made, its duration computed as
`duration_ms / 1000` from the external call record;
(2) if no attempt within the budget yields a 200 response with a summary, no
persistence call is made;
(3) in every case — including network faults and non-numeric user ids, which
raise inside the `try` and are swallowed — cleanup returns with the message
history, conversations, metadata and call id cleared. -/
theorem cleanup_persists_exactly_once (st : LlmState) (polls : Nat -> Option PollResult)
    (cid uid : String) (md : Metadata) (n : Int) (i : Nat)
    (hc : st.call_id = some cid) (hcne : cid ≠ "")
    (hm : st.metadata = some md) (hu : md.user_id = some uid) (hune : uid ≠ "")
    (hn : pyIntOfString uid = some n) :
    (∀ pr, i < 3 →
      (∀ j, j < i → ∃ prj, polls j = some prj ∧ prj.status = 200 ∧
        hasSummary prj.data = false) →
      polls i = some pr → pr.status = 200 → hasSummary pr.data = true →
      (cleanup st polls).1 = [⟨n, md.drew_id, "CALL", "successful",
        pr.data.call_summary.getD "", pr.data.recording_url,
        pr.data.duration_ms / 1000, pr.data.start_timestamp / 1000, cid⟩]) ∧
    ((∀ j, j < 3 → ∀ prj, polls j = some prj → prj.status = 200 →
        hasSummary prj.data = false) →
      (cleanup st polls).1 = []) ∧
    (cleanup st polls).2 = ⟨none, none, [], []⟩ := by
  refine ⟨?_, ?_, rfl⟩
  · intro pr hi hprior hpi h200 hsum
    have hloop : pollLoop (mkSave cid uid md.drew_id) polls 0 3 =
        .ok [⟨n, md.drew_id, "CALL", "successful",
          pr.data.call_summary.getD "", pr.data.recording_url,
          pr.data.duration_ms / 1000, pr.data.start_timestamp / 1000, cid⟩] := by
      interval_cases i
      · rw [pollLoop, hpi]
        dsimp only
        rw [if_pos h200, hsum]
        simp [mkSave, hn]
      · obtain ⟨pr0, hp0, hs0, hn0⟩ := hprior 0 (by omega)
        rw [pollLoop, hp0]
        dsimp only
        rw [if_pos hs0, hn0]
        simp only [Bool.false_eq_true, if_false]
        rw [pollLoop, hpi]
        dsimp only
        rw [if_pos h200, hsum]
        simp [mkSave, hn]
      · obtain ⟨pr0, hp0, hs0, hn0⟩ := hprior 0 (by omega)
        obtain ⟨pr1, hp1, hs1, hn1⟩ := hprior 1 (by omega)
        rw [pollLoop, hp0]
        dsimp only
        rw [if_pos hs0, hn0]
        simp only [Bool.false_eq_true, if_false]
        rw [pollLoop, hp1]
        dsimp only
        rw [if_pos hs1, hn1]
        simp only [Bool.false_eq_true, if_false]
        rw [pollLoop, hpi]
        dsimp only
        rw [if_pos h200, hsum]
        simp [mkSave, hn]
    simp [cleanup, hc, hcne, hm, hu, hune, hloop]
  · intro hno
    have := pollLoop_no_summary (mkSave cid uid md.drew_id) polls 3 0
      (fun j hj1 hj2 => hno j (by omega))
    rcases this with h | h <;> simp [cleanup, hc, hcne, hm, hu, hune, h]

/-- Witness for C9: with the summary appearing on the second attempt (the
first 200 response carries no summary yet), exactly one record is persisted
with duration 42 seconds; with no summary within the budget, none is; the
state is cleared either way. -/
theorem cleanup_persists_exactly_once_witness :
    (cleanup ⟨some "call_abc", some ⟨some "Sam", none, none, some "7", some "d1"⟩, [("assistant", "hello")], []⟩
      (fun j => if j = 0 then some ⟨200, ⟨none, 0, 0, ""⟩⟩
        else if j = 1 then some ⟨200, ⟨some "Discussed listings", 42500, 1700000000000, "http://r"⟩⟩
        else none)).1 =
      [⟨7, some "d1", "CALL", "successful", "Discussed listings", "http://r", 42, 1700000000, "call_abc"⟩] ∧
    (cleanup ⟨some "call_abc", some ⟨some "Sam", none, none, some "7", some "d1"⟩, [], []⟩
      (fun _ => some ⟨200, ⟨none, 0, 0, ""⟩⟩)).1 = [] ∧
    (cleanup ⟨some "call_abc", some ⟨some "Sam", none, none, some "7", some "d1"⟩, [("assistant", "hello")], []⟩
      (fun j => if j = 0 then some ⟨200, ⟨none, 0, 0, ""⟩⟩
        else if j = 1 then some ⟨200, ⟨some "Discussed listings", 42500, 1700000000000, "http://r"⟩⟩
        else none)).2 = ⟨none, none, [], []⟩ := by
  refine ⟨?_, ?_, ?_⟩
  · exact (cleanup_persists_exactly_once _ _ "call_abc" "7"
      ⟨some "Sam", none, none, some "7", some "d1"⟩ 7 1 rfl (by decide) rfl rfl (by decide) (by decide)).1
      ⟨200, ⟨some "Discussed listings", 42500, 1700000000000, "http://r"⟩⟩ (by omega)
      (by intro j hj; interval_cases j; exact ⟨⟨200, ⟨none, 0, 0, ""⟩⟩, rfl, rfl, rfl⟩)
      rfl rfl rfl
  · exact (cleanup_persists_exactly_once _ _ "call_abc" "7"
      ⟨some "Sam", none, none, some "7", some "d1"⟩ 7 0 rfl (by decide) rfl rfl (by decide) (by decide)).2.1
      (by intro j hj prj hprj h200; injection hprj with h; rw [← h]; rfl)
  · exact (cleanup_persists_exactly_once _ _ "call_abc" "7"
      ⟨some "Sam", none, none, some "7", some "d1"⟩ 7 0 rfl (by decide) rfl rfl (by decide) (by decide)).2.2

/-! ## Provider-response numeric parsing
(`app/tools_integration/zillow_integration.py`) -/

/-- A Python float value: finite (kept exact; binary64 rounding is not
modelled), an infinity, or NaN. -/
inductive PyFloat where
  | finite : Rat → PyFloat
  | inf : PyFloat
  | ninf : PyFloat
  | nan : PyFloat
deriving Repr, DecidableEq

/-- A Python value found in a provider-response field.  `pother` is any
object on which `float()` raises a `TypeError` (lists, dicts, ...). -/
inductive PyVal where
  | pnone : PyVal
  | pint : Int → PyVal
  | pfloat : PyFloat → PyVal
  | pstr : String → PyVal
  | pother : PyVal
deriving Repr, DecidableEq

/-- The exceptions `float()` / `int()` can raise here. -/
inductive PyErr where
  | valueError
  | typeError
  | overflowError
deriving Repr, DecidableEq

/-- `float(value)`.  `fp` stands for the float parser applied to strings
(`none` when parsing fails and `float()` raises `ValueError`).  An integer
that would round to infinity raises `OverflowError` (threshold
`2^1024 - 2^970`, the round-to-nearest-even overflow bound of binary64). -/
def pyFloatOf (fp : String -> Option PyFloat) : PyVal → Except PyErr PyFloat
  | .pnone => .error .typeError
  | .pint n => if 2 ^ 1024 - 2 ^ 970 ≤ n.natAbs then .error .overflowError else .ok (.finite n)
  | .pfloat f => .ok f
  | .pstr s =>
    match fp s with
    | some f => .ok f
    | none => .error .valueError
  | .pother => .error .typeError

/-- `int(f)` on a float: truncation toward zero for finite values; an
infinity raises `OverflowError`, NaN raises `ValueError`. -/
def pyIntOfFloat : PyFloat → Except PyErr Int
  | .finite q => .ok (if 0 ≤ q then ⌊q⌋ else -⌊-q⌋)
  | .inf => .error .overflowError
  | .ninf => .error .overflowError
  | .nan => .error .valueError

/-- `Property.safe_int`: `None` yields the default, `int(float(value))`
otherwise, with `ValueError` / `TypeError` caught and returning the default.
An `OverflowError` (an infinite float, a string parsing to infinity, or an
integer beyond float range) is *not* in the caught tuple and escapes. -/
def safe_int (fp : String -> Option PyFloat) (value : PyVal) (default : Int) :
    Except PyErr Int :=
  match value with
  | .pnone => .ok default
  | v =>
    match pyFloatOf fp v with
    | .error .valueError => .ok default
    | .error .typeError => .ok default
    | .error .overflowError => .error .overflowError
    | .ok f =>
      match pyIntOfFloat f with
      | .ok n => .ok n
      | .error .valueError => .ok default
      | .error .typeError => .ok default
      | .error .overflowError => .error .overflowError

/-- `Property.safe_float`: `None` yields the default, `float(value)`
otherwise, with `ValueError` / `TypeError` caught and returning the default;
as in `safe_int`, an `OverflowError` escapes. -/
def safe_float (fp : String -> Option PyFloat) (value : PyVal) (default : PyFloat) :
    Except PyErr PyFloat :=
  match value with
  | .pnone => .ok default
  | v =>
    match pyFloatOf fp v with
    | .ok f => .ok f
    | .error .valueError => .ok default
    | .error .typeError => .ok default
    | .error .overflowError => .error .overflowError

/-- Python `str()` on a field value (float/object `repr` stubbed; only used
for the non-numeric string fields, which the claims do not inspect). -/
def pyStr : PyVal → String
  | .pnone => "None"
  | .pint n => toString n
  | .pfloat _ => "float"
  | .pstr s => s
  | .pother => "object"

/-- `str(prop.get(key, ''))`: a missing key yields the empty string. -/
def strField (g : String -> PyVal) (k : String) : String :=
  match g k with
  | .pnone => ""
  | v => pyStr v

/-- Address cleaning of `parse_api1_response`: split on spaces and drop every
part for which `part.isdigit()` holds (ASCII digits modelled). -/
def cleanAddress (s : String) : String :=
  " ".intercalate ((s.splitOn " ").filter
    (fun part => !(!part.isEmpty && part.toList.all Char.isDigit)))

/-- The normalized property record built by `parse_api1_response`. -/
structure Property where
  address : String
  price : PyFloat
  bedrooms : Int
  bathrooms : PyFloat
  living_area : PyFloat
  lot_area : PyFloat
  lot_area_unit : String
  property_type : String
  zestimate : PyFloat
  rent_estimate : PyFloat
  days_on_zillow : Int
  listing_status : String
  latitude : PyFloat
  longitude : PyFloat
deriving Repr, DecidableEq

/-- Construction of one `Property` from an api-1 response record `g`
(`prop.get`, with `pnone` for a missing key), exactly the `Property(...)`
call of `parse_api1_response`; the `Except` propagates the only exception
`safe_int` / `safe_float` can raise (`OverflowError`). -/
def mkPropertyApi1 (fp : String -> Option PyFloat) (g : String -> PyVal) :
    Except PyErr Property := do
  let price ← safe_float fp (g "price") (.finite 0)
  let bedrooms ← safe_int fp (g "bedrooms") 0
  let bathrooms ← safe_float fp (g "bathrooms") (.finite 0)
  let living_area ← safe_float fp (g "livingArea") (.finite 0)
  let lot_area ← safe_float fp (g "lotAreaValue") (.finite 0)
  let zestimate ← safe_float fp (g "zestimate") (.finite 0)
  let rent_estimate ← safe_float fp (g "rentZestimate") (.finite 0)
  let days_on_zillow ← safe_int fp (g "daysOnZillow") 0
  let latitude ← safe_float fp (g "latitude") (.finite 0)
  let longitude ← safe_float fp (g "longitude") (.finite 0)
  return ⟨cleanAddress (strField g "address"), price, bedrooms, bathrooms, living_area,
    lot_area, strField g "lotAreaUnit", strField g "propertyType", zestimate,
    rent_estimate, days_on_zillow, strField g "listingStatus", latitude, longitude⟩

/-- A missing field (`None`), a string `float()` rejects, or an object
`float()` rejects — the input universe of the claim. -/
def benign (fp : String -> Option PyFloat) : PyVal → Bool
  | .pnone => true
  | .pstr s => (fp s).isNone
  | .pother => true
  | _ => false

theorem safe_int_benign (fp : String -> Option PyFloat) (v : PyVal) (d : Int)
    (h : benign fp v = true) : safe_int fp v d = .ok d := by
  cases v with
  | pnone => rfl
  | pint n => simp [benign] at h
  | pfloat f => simp [benign] at h
  | pstr s =>
    have hs : fp s = none := by simpa [benign, Option.isNone_iff_eq_none] using h
    simp [safe_int, pyFloatOf, hs]
  | pother => rfl

theorem safe_float_benign (fp : String -> Option PyFloat) (v : PyVal) (df : PyFloat)
    (h : benign fp v = true) : safe_float fp v df = .ok df := by
  cases v with
  | pnone => rfl
  | pint n => simp [benign] at h
  | pfloat f => simp [benign] at h
  | pstr s =>
    have hs : fp s = none := by simpa [benign, Option.isNone_iff_eq_none] using h
    simp [safe_float, pyFloatOf, hs]
  | pother => rfl

/-- C10: the numeric field parsers `safe_int` and `safe_float` return the
supplied default instead of raising for every input of the claimed universe —
`None`, a string the float parser rejects, or an unparseable object — and
consequently building a `Property` record from a response whose numeric
fields are all missing or malformed succeeds, with every numeric field at its
default. -/
theorem safe_parsers_total_on_bad_fields (fp : String -> Option PyFloat)
    (d : Int) (df : PyFloat) (g : String -> PyVal) :
    (∀ v, benign fp v = true → safe_int fp v d = .ok d ∧ safe_float fp v df = .ok df) ∧
    ((∀ k ∈ ["price", "bedrooms", "bathrooms", "livingArea", "lotAreaValue",
        "zestimate", "rentZestimate", "daysOnZillow", "latitude", "longitude"],
      benign fp (g k) = true) →
      mkPropertyApi1 fp g = .ok ⟨cleanAddress (strField g "address"), .finite 0, 0,
        .finite 0, .finite 0, .finite 0, strField g "lotAreaUnit",
        strField g "propertyType", .finite 0, .finite 0, 0,
        strField g "listingStatus", .finite 0, .finite 0⟩) := by
  constructor
  · intro v hv
    exact ⟨safe_int_benign fp v d hv, safe_float_benign fp v df hv⟩
  · intro hb
    have h1 := safe_float_benign fp (g "price") (.finite 0) (hb "price" (by simp))
    have h2 := safe_int_benign fp (g "bedrooms") 0 (hb "bedrooms" (by simp))
    have h3 := safe_float_benign fp (g "bathrooms") (.finite 0) (hb "bathrooms" (by simp))
    have h4 := safe_float_benign fp (g "livingArea") (.finite 0) (hb "livingArea" (by simp))
    have h5 := safe_float_benign fp (g "lotAreaValue") (.finite 0) (hb "lotAreaValue" (by simp))
    have h6 := safe_float_benign fp (g "zestimate") (.finite 0) (hb "zestimate" (by simp))
    have h7 := safe_float_benign fp (g "rentZestimate") (.finite 0) (hb "rentZestimate" (by simp))
    have h8 := safe_int_benign fp (g "daysOnZillow") 0 (hb "daysOnZillow" (by simp))
    have h9 := safe_float_benign fp (g "latitude") (.finite 0) (hb "latitude" (by simp))
    have h10 := safe_float_benign fp (g "longitude") (.finite 0) (hb "longitude" (by simp))
    rw [mkPropertyApi1, h1, h2, h3, h4, h5, h6, h7, h8, h9, h10]
    rfl

/-- Witness for C10: with a float parser rejecting everything and a response
record whose fields are all missing, the parsers return their defaults and
the property record is built with every numeric field defaulted. -/
theorem safe_parsers_total_on_bad_fields_witness :
    benign (fun _ => none) (PyVal.pstr "N/A") = true ∧
    safe_int (fun _ => none) (PyVal.pstr "N/A") 0 = .ok 0 ∧
    safe_float (fun _ => none) PyVal.pnone (.finite 0) = .ok (.finite 0) ∧
    mkPropertyApi1 (fun _ => none) (fun _ => PyVal.pnone) =
      .ok ⟨cleanAddress (strField (fun _ => PyVal.pnone) "address"), .finite 0, 0,
        .finite 0, .finite 0, .finite 0, strField (fun _ => PyVal.pnone) "lotAreaUnit",
        strField (fun _ => PyVal.pnone) "propertyType", .finite 0, .finite 0, 0,
        strField (fun _ => PyVal.pnone) "listingStatus", .finite 0, .finite 0⟩ := by
  refine ⟨rfl, ?_, ?_, ?_⟩
  · exact ((safe_parsers_total_on_bad_fields (fun _ => none) 0 (.finite 0)
      (fun _ => PyVal.pnone)).1 (PyVal.pstr "N/A") rfl).1
  · exact ((safe_parsers_total_on_bad_fields (fun _ => none) 0 (.finite 0)
      (fun _ => PyVal.pnone)).1 PyVal.pnone rfl).2
  · exact (safe_parsers_total_on_bad_fields (fun _ => none) 0 (.finite 0)
      (fun _ => PyVal.pnone)).2 (by intro k hk; rfl)

end Drew
